import Mathlib

/-!
Shallow embedding of `src/api/scripts/verify_authorization.py`, the PCF API
authorization verification script.

Modelling conventions:
* A parsed JSON document is the inductive `Json` below; JSON numbers are
  modelled as integers (no probe rule inspects numeric values).
* The outcome of one `requests.post` call is a `Fetch`: either a response
  carrying an HTTP status code together with the result of `response.json()`
  (`Except.error` when `.json()` would raise on a non-JSON body), or a
  transport-level exception carrying its message (`Fetch.exn`).
* The behaviour of the target across one run is a function `env : Nat → Fetch`
  giving the outcome of the k-th HTTP request the script issues, counting in
  issue order: request 0 is the availability probe, 1 the health probe, 2-3
  the two protected queries, 4 the demo-mode probe, 5-7 the three bypass
  payloads and 8-17 the ten rate-limit requests.
* Python dynamic operations used by the classifiers (`in`, subscription,
  iteration, `str`) are modelled by `pyIn`, `pyGet`, `pyIter`, `pyStr`;
  a `TypeError`/`KeyError` they may raise is an `Except.error`, which the
  per-probe `try`/`except` blocks translate into the same verdict the Python
  handler produces.
-/

/-- Python single-quote character, used by the `repr` rendering of strings. -/
def pySq : String := String.singleton (Char.ofNat 39)

/-- `n` occurs at the start of `h` (on character lists). -/
def charsStartWith : List Char → List Char → Bool
  | _, [] => true
  | [], _ :: _ => false
  | c :: cs, d :: ds => c == d && charsStartWith cs ds

/-- `n` occurs as a contiguous run somewhere in `h` (on character lists). -/
def charsContain (n : List Char) : List Char → Bool
  | [] => charsStartWith [] n
  | c :: t => charsStartWith (c :: t) n || charsContain n t

/-- `t` occurs at the start of `s`. -/
def strStartsWith (s t : String) : Bool :=
  charsStartWith s.data t.data

/-- Python `needle in haystack` for strings: substring occurrence. -/
def strContains (haystack needle : String) : Bool :=
  charsContain needle.data haystack.data

/-- Python `str.lower`, modelled character by character (the keyword scan
only needs ASCII case folding). -/
def strToLower (s : String) : String :=
  String.mk (s.data.map Char.toLower)

/-- Python string repetition `s * n`. -/
def strRepeat (s : String) : Nat → String
  | 0 => ""
  | n + 1 => s ++ strRepeat s n

/-- A parsed JSON document (`response.json()` result). -/
inductive Json where
  | null
  | bool (b : Bool)
  | num (n : Int)
  | str (s : String)
  | arr (items : List Json)
  | obj (fields : List (String × Json))

mutual

/-- Python `repr` of a parsed JSON value (dicts/lists/strings as Python
prints them; `None`/`True`/`False` for the JSON constants). -/
def pyRepr : Json → String
  | .null => "None"
  | .bool true => "True"
  | .bool false => "False"
  | .num n => toString n
  | .str s => pySq ++ s ++ pySq
  | .arr items => "[" ++ pyReprItems items ++ "]"
  | .obj fields => "\x7b" ++ pyReprFields fields ++ "\x7d"

/-- Comma-separated `repr`s of the elements of a Python list. -/
def pyReprItems : List Json → String
  | [] => ""
  | [x] => pyRepr x
  | x :: y :: xs => pyRepr x ++ ", " ++ pyReprItems (y :: xs)

/-- Comma-separated `key: value` `repr`s of the entries of a Python dict. -/
def pyReprFields : List (String × Json) → String
  | [] => ""
  | [kv] => pySq ++ kv.1 ++ pySq ++ ": " ++ pyRepr kv.2
  | kv :: kw :: xs => pySq ++ kv.1 ++ pySq ++ ": " ++ pyRepr kv.2 ++ ", " ++ pyReprFields (kw :: xs)

end

/-- Python `str` of a parsed JSON value: a string prints itself, everything
else prints as its `repr`. -/
def pyStr : Json → String
  | .str s => s
  | .null => pyRepr .null
  | .bool b => pyRepr (.bool b)
  | .num n => pyRepr (.num n)
  | .arr items => pyRepr (.arr items)
  | .obj fields => pyRepr (.obj fields)

/-- Python `key in container` for a string key: key test on a dict,
membership on a list, substring on a string; `TypeError` otherwise. -/
def pyIn (key : String) : Json → Except String Bool
  | .obj fields => .ok (fields.any fun kv => kv.1 == key)
  | .arr items => .ok (items.any fun j => match j with | .str s => s == key | _ => false)
  | .str s => .ok (strContains s key)
  | _ => .error "TypeError: argument of type is not iterable"

/-- Python `container[key]` for a string key: dict lookup (`KeyError` when
absent), `TypeError` on anything that is not a dict. -/
def pyGet (j : Json) (key : String) : Except String Json :=
  match j with
  | .obj fields =>
    match fields.lookup key with
    | some v => .ok v
    | none => .error ("KeyError: " ++ key)
  | _ => .error "TypeError: indices must be integers"

/-- Python `for x in container`: elements of a list, keys of a dict,
characters of a string; `TypeError` otherwise. -/
def pyIter : Json → Except String (List Json)
  | .arr items => .ok items
  | .obj fields => .ok (fields.map fun kv => Json.str kv.1)
  | .str s => .ok (s.toList.map fun c => Json.str (String.singleton c))
  | _ => .error "TypeError: object is not iterable"

/-- Outcome of one `requests.post` call: a response with status code and the
result of `response.json()` (error when the body is not JSON, raised only if
the probe actually calls `.json()`), or a transport exception. -/
inductive Fetch where
  | resp (status : Nat) (body : Except String Json)
  | exn (msg : String)

/-- `TestResult` dataclass: name, passed flag, message, optional status. -/
structure TestResult where
  name : String
  passed : Bool
  message : String
  response_code : Option Nat

/-- The two protected GraphQL queries of `_test_unauthenticated_requests`. -/
def protected_queries : List String :=
  [ "\x7b notes(first: 5) \x7b edges \x7b node \x7b id title \x7d \x7d \x7d \x7d",
    "\x7b note(id: \"notes:test\") \x7b id title \x7d \x7d" ]

/-- The three adversarial payloads of `_test_authorization_bypass_attempts`:
SQL injection, GraphQL injection, and a large-complexity query built by
string repetition. -/
def bypass_attempts : List String :=
  [ "\x7b note(id: \"" ++ pySq ++ "; DROP TABLE notes; --\") \x7b id \x7d \x7d",
    "\x7b note(id: \"notes:test\") \x7b id ... on __Schema \x7b types \x7b name \x7d \x7d \x7d \x7d",
    "\x7b " ++ strRepeat "notes(first: 1000) \x7b edges \x7b node \x7b " 10 ++ "id"
      ++ strRepeat " \x7d \x7d \x7d" 10 ++ " \x7d" ]

/-- `_test_graphql_endpoint`: 200 passes, any other status fails, a transport
exception falls into the `except` handler (`.json()` is never called). -/
def test_graphql_endpoint (f : Fetch) : TestResult :=
  match f with
  | .resp status _ =>
    if status == 200 then
      ⟨"GraphQL Endpoint Available", true, "GraphQL endpoint is responding", some status⟩
    else
      ⟨"GraphQL Endpoint Available", false,
        "GraphQL endpoint returned status " ++ toString status, some status⟩
  | .exn e =>
    ⟨"GraphQL Endpoint Available", false, "Failed to connect to GraphQL endpoint: " ++ e, none⟩

/-- The body check of `_test_health_endpoint` on a 200 response:
`.json()` followed by the short-circuit test
`'data' in data and 'health' in data['data']`. -/
def healthBodyCheck (body : Except String Json) : Except String Bool :=
  match body with
  | .error e => .error e
  | .ok data =>
    match pyIn "data" data with
    | .error e => .error e
    | .ok false => .ok false
    | .ok true =>
      match pyGet data "data" with
      | .error e => .error e
      | .ok dataField => pyIn "health" dataField

/-- `_test_health_endpoint`: 200 with a `data.health` shape passes; 200 with
another shape, a non-200 status, or any raised error fails. -/
def test_health_endpoint (f : Fetch) : TestResult :=
  match f with
  | .resp status body =>
    if status == 200 then
      match healthBodyCheck body with
      | .ok true =>
        ⟨"Health Endpoint No Auth Required", true,
          "Health endpoint accessible without authentication", some status⟩
      | .ok false =>
        ⟨"Health Endpoint No Auth Required", false,
          "Health endpoint returned unexpected format", some status⟩
      | .error e =>
        ⟨"Health Endpoint No Auth Required", false, "Health endpoint test failed: " ++ e, none⟩
    else
      ⟨"Health Endpoint No Auth Required", false,
        "Health endpoint returned status " ++ toString status, some status⟩
  | .exn e =>
    ⟨"Health Endpoint No Auth Required", false, "Health endpoint test failed: " ++ e, none⟩

/-- The keyword scan of `_test_unauthenticated_requests`:
`'auth' in str(error).lower() or 'permission' in str(error).lower()`. -/
def errorMatchesAuth (error : Json) : Bool :=
  strContains (strToLower (pyStr error)) "auth" || strContains (strToLower (pyStr error)) "permission"

/-- The body check of `_test_unauthenticated_requests` on a 200 response:
`.ok none` when `'errors' not in data`, `.ok (some b)` when the key is
present and the keyword scan over `data['errors']` yields `b`, `.error`
when any of these Python operations raises. -/
def protectedQueryCheck (body : Except String Json) : Except String (Option Bool) :=
  match body with
  | .error e => .error e
  | .ok data =>
    match pyIn "errors" data with
    | .error e => .error e
    | .ok false => .ok none
    | .ok true =>
      match pyGet data "errors" with
      | .error e => .error e
      | .ok errs =>
        match pyIter errs with
        | .error e => .error e
        | .ok items => .ok (some (items.any errorMatchesAuth))

/-- One iteration of the `_test_unauthenticated_requests` loop: classify the
outcome of protected query `i` (0-based). -/
def protectedQueryResult (i : Nat) (f : Fetch) : TestResult :=
  match f with
  | .resp status body =>
    if status == 200 then
      match protectedQueryCheck body with
      | .ok (some true) =>
        ⟨"Protected Query " ++ toString (i + 1) ++ " Requires Auth", true,
          "Protected query correctly rejected without auth", some status⟩
      | .ok (some false) =>
        ⟨"Protected Query " ++ toString (i + 1) ++ " Requires Auth", false,
          "Protected query should require authentication", some status⟩
      | .ok none =>
        ⟨"Protected Query " ++ toString (i + 1) ++ " Requires Auth", false,
          "Protected query returned success without auth - security issue!", some status⟩
      | .error e =>
        ⟨"Protected Query " ++ toString (i + 1) ++ " Requires Auth", false,
          "Test failed: " ++ e, none⟩
    else
      ⟨"Protected Query " ++ toString (i + 1) ++ " Requires Auth", false,
        "Unexpected status code: " ++ toString status, some status⟩
  | .exn e =>
    ⟨"Protected Query " ++ toString (i + 1) ++ " Requires Auth", false, "Test failed: " ++ e, none⟩

/-- `_test_unauthenticated_requests`: one verdict per protected query; the
`try` sits inside the loop, so each iteration is classified independently.
`start` is the index of the first HTTP request the loop issues. -/
def test_unauthenticated_requests (env : Nat → Fetch) (start : Nat) : List TestResult :=
  (List.range protected_queries.length).map fun i => protectedQueryResult i (env (start + i))

/-- `_test_demo_mode`: 200 passes (the body is never inspected), any other
status or a transport exception fails. -/
def test_demo_mode (f : Fetch) : TestResult :=
  match f with
  | .resp status _ =>
    if status == 200 then
      ⟨"Demo Mode Detection", true,
        "Demo mode test completed (check server logs for warnings)", some status⟩
    else
      ⟨"Demo Mode Detection", false,
        "Could not test demo mode: status " ++ toString status, some status⟩
  | .exn e =>
    ⟨"Demo Mode Detection", false, "Demo mode test failed: " ++ e, none⟩

/-- One iteration of the `_test_authorization_bypass_attempts` loop: 200 with
an `errors` key passes, 200 without it fails, any non-200 status passes, and
any raised error (transport or body) passes via the `except` handler. -/
def bypassAttemptResult (i : Nat) (f : Fetch) : TestResult :=
  match f with
  | .resp status body =>
    if status == 200 then
      match body with
      | .error e =>
        ⟨"Bypass Attempt " ++ toString (i + 1) ++ " Blocked", true,
          "Bypass attempt caused error (likely blocked): " ++ e, none⟩
      | .ok data =>
        match pyIn "errors" data with
        | .error e =>
          ⟨"Bypass Attempt " ++ toString (i + 1) ++ " Blocked", true,
            "Bypass attempt caused error (likely blocked): " ++ e, none⟩
        | .ok true =>
          ⟨"Bypass Attempt " ++ toString (i + 1) ++ " Blocked", true,
            "Potential bypass attempt properly rejected", some status⟩
        | .ok false =>
          ⟨"Bypass Attempt " ++ toString (i + 1) ++ " Blocked", false,
            "Potential bypass attempt was not rejected - investigate!", some status⟩
    else
      ⟨"Bypass Attempt " ++ toString (i + 1) ++ " Blocked", true,
        "Bypass attempt rejected with status " ++ toString status, some status⟩
  | .exn e =>
    ⟨"Bypass Attempt " ++ toString (i + 1) ++ " Blocked", true,
      "Bypass attempt caused error (likely blocked): " ++ e, none⟩

/-- `_test_authorization_bypass_attempts`: one verdict per payload, each
iteration classified independently. -/
def test_authorization_bypass_attempts (env : Nat → Fetch) (start : Nat) : List TestResult :=
  (List.range bypass_attempts.length).map fun i => bypassAttemptResult i (env (start + i))

/-- First transport exception among the rate-limit requests; the Python loop
aborts into the `except` handler at that point. -/
def firstExn : List Fetch → Option String
  | [] => none
  | .exn e :: _ => some e
  | .resp _ _ :: rest => firstExn rest

/-- `_test_rate_limiting`: ten rapid requests; if none raises, the verdict is
passed whether or not any status is 429 (only the message differs); if one
raises, the `except` handler yields a failed verdict. -/
def test_rate_limiting (outcomes : List Fetch) : TestResult :=
  match firstExn outcomes with
  | some e =>
    ⟨"Rate Limiting Active", false, "Rate limiting test failed: " ++ e, none⟩
  | none =>
    let responses := outcomes.filterMap fun f =>
      match f with
      | .resp s _ => some s
      | .exn _ => none
    let rate_limited := responses.any fun status => status == 429
    if rate_limited then
      ⟨"Rate Limiting Active", true,
        "Rate limiting is active (some requests returned 429)", none⟩
    else
      ⟨"Rate Limiting Active", true,
        "Rate limiting test completed (no 429s - may not be configured)", none⟩

/-- The contents of `self.results` after `run_all_tests`: the six probe
methods in their fixed order, request outcomes drawn from `env` in issue
order. -/
def runResults (env : Nat → Fetch) : List TestResult :=
  [test_graphql_endpoint (env 0), test_health_endpoint (env 1)]
    ++ test_unauthenticated_requests env 2
    ++ [test_demo_mode (env 4)]
    ++ test_authorization_bypass_attempts env 5
    ++ [test_rate_limiting ((List.range 10).map fun k => env (8 + k))]

/-- `run_all_tests`: runs every probe, then returns whether
`sum(1 for r in self.results if r.passed)` equals `len(self.results)`. -/
def run_all_tests (env : Nat → Fetch) : Bool :=
  let results := runResults env
  let passed_tests := results.countP fun r => r.passed
  let total_tests := results.length
  passed_tests == total_tests

/-- `main`: `sys.exit(0 if success else 1)`. -/
def mainExitCode (env : Nat → Fetch) : Nat :=
  if run_all_tests env then 0 else 1

/-- Default `TestResult` used as the out-of-range value of `List.getD`. -/
def dfltResult : TestResult := ⟨"", false, "", none⟩

/-- A completely unreachable target: every request raises the same
transport exception. -/
def envDown : Nat → Fetch := fun _ => Fetch.exn "Connection refused"

/-- A target answering every request (in particular every protected query
and every bypass payload) with HTTP status 401. -/
def env401 : Nat → Fetch := fun _ => Fetch.resp 401 (Except.ok Json.null)

/-- The body of a 200 response contains an `errors` collection one of whose
elements mentions the authentication/authorization vocabulary: the `errors`
membership test succeeds, subscription and iteration succeed, and the
keyword scan finds a match. -/
def bodyHasAuthError (j : Json) : Prop :=
  pyIn "errors" j = Except.ok true ∧
    ∃ errs items, pyGet j "errors" = Except.ok errs ∧ pyIter errs = Except.ok items ∧
      items.any errorMatchesAuth = true

theorem runResults_eq (env : Nat → Fetch) :
    runResults env =
      [test_graphql_endpoint (env 0), test_health_endpoint (env 1),
       protectedQueryResult 0 (env 2), protectedQueryResult 1 (env 3),
       test_demo_mode (env 4),
       bypassAttemptResult 0 (env 5), bypassAttemptResult 1 (env 6), bypassAttemptResult 2 (env 7),
       test_rate_limiting
         [env 8, env 9, env 10, env 11, env 12, env 13, env 14, env 15, env 16, env 17]] := rfl

theorem run_all_tests_iff (env : Nat → Fetch) :
    run_all_tests env = true ↔ ∀ r ∈ runResults env, r.passed = true := by
  simp only [run_all_tests, beq_iff_eq]
  exact List.countP_eq_length

theorem test_graphql_endpoint_name (f : Fetch) :
    (test_graphql_endpoint f).name = "GraphQL Endpoint Available" := by
  cases f
  all_goals simp only [test_graphql_endpoint]
  all_goals repeat' split
  all_goals rfl

theorem test_health_endpoint_name (f : Fetch) :
    (test_health_endpoint f).name = "Health Endpoint No Auth Required" := by
  cases f
  all_goals simp only [test_health_endpoint]
  all_goals repeat' split
  all_goals rfl

theorem protectedQueryResult_name (i : Nat) (f : Fetch) :
    (protectedQueryResult i f).name = "Protected Query " ++ toString (i + 1) ++ " Requires Auth" := by
  cases f
  all_goals simp only [protectedQueryResult]
  all_goals repeat' split
  all_goals rfl

theorem test_demo_mode_name (f : Fetch) :
    (test_demo_mode f).name = "Demo Mode Detection" := by
  cases f
  all_goals simp only [test_demo_mode]
  all_goals repeat' split
  all_goals rfl

theorem bypassAttemptResult_name (i : Nat) (f : Fetch) :
    (bypassAttemptResult i f).name = "Bypass Attempt " ++ toString (i + 1) ++ " Blocked" := by
  cases f
  all_goals simp only [bypassAttemptResult]
  all_goals repeat' split
  all_goals rfl

theorem test_rate_limiting_name (outcomes : List Fetch) :
    (test_rate_limiting outcomes).name = "Rate Limiting Active" := by
  simp only [test_rate_limiting]
  repeat' split
  all_goals rfl

theorem test_graphql_endpoint_passed_iff (f : Fetch) :
    (test_graphql_endpoint f).passed = true ↔ ∃ b, f = Fetch.resp 200 b := by
  cases f with
  | exn e => simp [test_graphql_endpoint]
  | resp s b =>
    by_cases hs : s = 200
    · subst hs; simp [test_graphql_endpoint]
    · have hb : (s == 200) = false := by simpa using hs
      simp [test_graphql_endpoint, hb, hs]

theorem test_demo_mode_passed_iff (f : Fetch) :
    (test_demo_mode f).passed = true ↔ ∃ b, f = Fetch.resp 200 b := by
  cases f with
  | exn e => simp [test_demo_mode]
  | resp s b =>
    by_cases hs : s = 200
    · subst hs; simp [test_demo_mode]
    · have hb : (s == 200) = false := by simpa using hs
      simp [test_demo_mode, hb, hs]

theorem test_health_endpoint_passed_iff (f : Fetch) :
    (test_health_endpoint f).passed = true ↔
      ∃ b, f = Fetch.resp 200 b ∧ healthBodyCheck b = Except.ok true := by
  cases f with
  | exn e => simp [test_health_endpoint]
  | resp s b =>
    by_cases hs : s = 200
    · subst hs
      cases hc : healthBodyCheck b with
      | error e => simp [test_health_endpoint, hc]
      | ok v => cases v <;> simp [test_health_endpoint, hc]
    · have hb : (s == 200) = false := by simpa using hs
      simp [test_health_endpoint, hb, hs]

theorem protectedQueryCheck_eq_some_true (body : Except String Json) :
    protectedQueryCheck body = Except.ok (some true) ↔
      ∃ j, body = Except.ok j ∧ bodyHasAuthError j := by
  cases body with
  | error e => simp [protectedQueryCheck]
  | ok data =>
    simp only [protectedQueryCheck, Except.ok.injEq, exists_eq_left']
    cases hin : pyIn "errors" data with
    | error e => simp [bodyHasAuthError, hin]
    | ok b =>
      cases b with
      | false => simp [bodyHasAuthError, hin]
      | true =>
        cases hget : pyGet data "errors" with
        | error e => simp [bodyHasAuthError, hget]
        | ok errs =>
          cases hiter : pyIter errs with
          | error e => simp [bodyHasAuthError, hget, hiter]
          | ok items => simp [bodyHasAuthError, hin, hget, hiter]

theorem protectedQueryResult_passed_200 (i : Nat) (body : Except String Json) :
    (protectedQueryResult i (Fetch.resp 200 body)).passed = true ↔
      protectedQueryCheck body = Except.ok (some true) := by
  cases h : protectedQueryCheck body with
  | error e => simp [protectedQueryResult, h]
  | ok v =>
    cases v with
    | none => simp [protectedQueryResult, h]
    | some b => cases b <;> simp [protectedQueryResult, h]

/-- C3: a protected-query verdict is passed iff the response has status 200
and its JSON body contains an `errors` collection in which some error's
case-insensitive string form contains "auth" or "permission"; a 200 response
whose body has no `errors` collection yields a failed verdict whose message
flags a security issue. -/
theorem claim_C3 (i : Nat) (f : Fetch) :
    ((protectedQueryResult i f).passed = true ↔
      ∃ j, f = Fetch.resp 200 (Except.ok j) ∧ bodyHasAuthError j) ∧
    (∀ j, f = Fetch.resp 200 (Except.ok j) → pyIn "errors" j = Except.ok false →
      (protectedQueryResult i f).passed = false ∧
      (protectedQueryResult i f).message =
        "Protected query returned success without auth - security issue!") := by
  constructor
  · cases f with
    | exn e => simp [protectedQueryResult]
    | resp s body =>
      by_cases hs : s = 200
      · subst hs
        rw [protectedQueryResult_passed_200, protectedQueryCheck_eq_some_true]
        simp [Fetch.resp.injEq]
      · have hb : (s == 200) = false := by simpa using hs
        simp [protectedQueryResult, hb, hs]
  · intro j hf hno
    subst hf
    constructor
    · simp [protectedQueryResult, protectedQueryCheck, hno]
    · simp [protectedQueryResult, protectedQueryCheck, hno]

/-- Witness for C3: a 200 body with an auth-keyword error passes; a 200 body
carrying only `data` fails with the security-issue message. -/
theorem claim_C3_witness :
    (protectedQueryResult 0 (Fetch.resp 200 (Except.ok
      (Json.obj [("errors", Json.arr [Json.str "auth required"])])))).passed = true ∧
    (protectedQueryResult 1 (Fetch.resp 200 (Except.ok
      (Json.obj [("data", Json.obj [("note", Json.null)])])))).message =
      "Protected query returned success without auth - security issue!" := by
  refine ⟨(claim_C3 0 _).1.mpr
    ⟨Json.obj [("errors", Json.arr [Json.str "auth required"])], rfl, rfl,
      Json.arr [Json.str "auth required"], [Json.str "auth required"], rfl, rfl, by decide⟩,
    ((claim_C3 1 _).2 (Json.obj [("data", Json.obj [("note", Json.null)])]) rfl rfl).2⟩

/-- C4: the passed count never exceeds the total count; `run_all_tests`
returns true iff the counts agree; the process exit code is 0 iff that
boolean is true and 1 otherwise. -/
theorem claim_C4 (env : Nat → Fetch) :
    ((runResults env).countP fun r => r.passed) ≤ (runResults env).length ∧
    (run_all_tests env = true ↔
      ((runResults env).countP fun r => r.passed) = (runResults env).length) ∧
    (mainExitCode env = 0 ↔ run_all_tests env = true) ∧
    (run_all_tests env = false → mainExitCode env = 1) := by
  refine ⟨List.countP_le_length _, ?_, ?_, ?_⟩
  · simp [run_all_tests]
  · cases h : run_all_tests env <;> simp [mainExitCode, h]
  · intro h
    simp [mainExitCode, h]

/-- Witness for C4 at the all-401 target. -/
theorem claim_C4_witness :
    ((runResults env401).countP fun r => r.passed) ≤ (runResults env401).length ∧
    (run_all_tests env401 = true ↔
      ((runResults env401).countP fun r => r.passed) = (runResults env401).length) ∧
    (mainExitCode env401 = 0 ↔ run_all_tests env401 = true) ∧
    (run_all_tests env401 = false → mainExitCode env401 = 1) :=
  claim_C4 env401

/-- C5: every invocation produces exactly one verdict per probe and per list
element — nine verdicts in a fixed order with fixed names — for every
combination of request outcomes. -/
theorem claim_C5 (env : Nat → Fetch) :
    (runResults env).length = 9 ∧
    (runResults env).map (fun r => r.name) =
      ["GraphQL Endpoint Available", "Health Endpoint No Auth Required",
       "Protected Query 1 Requires Auth", "Protected Query 2 Requires Auth",
       "Demo Mode Detection", "Bypass Attempt 1 Blocked", "Bypass Attempt 2 Blocked",
       "Bypass Attempt 3 Blocked", "Rate Limiting Active"] := by
  rw [runResults_eq]
  refine ⟨rfl, ?_⟩
  simp only [List.map_cons, List.map_nil, test_graphql_endpoint_name, test_health_endpoint_name,
    protectedQueryResult_name, test_demo_mode_name, bypassAttemptResult_name,
    test_rate_limiting_name]
  rfl

/-- Witness for C5 at the unreachable target. -/
theorem claim_C5_witness : (runResults envDown).length = 9 :=
  (claim_C5 envDown).1

/-- C7: a bypass-attempt request that raises a timeout or any other
transport-level exception yields a passed verdict carrying the error text. -/
theorem claim_C7 (i : Nat) (e : String) :
    (bypassAttemptResult i (Fetch.exn e)).passed = true ∧
    (bypassAttemptResult i (Fetch.exn e)).message =
      "Bypass attempt caused error (likely blocked): " ++ e :=
  ⟨rfl, rfl⟩

/-- Witness for C7 at a concrete timeout. -/
theorem claim_C7_witness :
    (bypassAttemptResult 0 (Fetch.exn "Read timed out")).passed = true :=
  (claim_C7 0 "Read timed out").1

/-- C8: the run is total over probe outcomes — for every environment
(any status, any body including non-JSON, any transport exception) each of
the nine verdicts is produced by its own classifier applied to its own
request outcomes, and the overall result is the boolean comparing the
passed count against nine. -/
theorem claim_C8 (env : Nat → Fetch) :
    runResults env =
      [test_graphql_endpoint (env 0), test_health_endpoint (env 1),
       protectedQueryResult 0 (env 2), protectedQueryResult 1 (env 3),
       test_demo_mode (env 4),
       bypassAttemptResult 0 (env 5), bypassAttemptResult 1 (env 6), bypassAttemptResult 2 (env 7),
       test_rate_limiting
         [env 8, env 9, env 10, env 11, env 12, env 13, env 14, env 15, env 16, env 17]] ∧
    run_all_tests env = (((runResults env).countP fun r => r.passed) == 9) := by
  refine ⟨runResults_eq env, ?_⟩
  have hl : (runResults env).length = 9 := rfl
  simp [run_all_tests, hl]

/-- Witness for C8 at the unreachable target. -/
theorem claim_C8_witness :
    run_all_tests envDown = (((runResults envDown).countP fun r => r.passed) == 9) :=
  (claim_C8 envDown).2

/-- C9: the demo-mode verdict is passed iff the request returns status 200
(the body is never inspected), and a failed demo-mode verdict forces the
overall boolean to false. -/
theorem claim_C9 (env : Nat → Fetch) :
    ((test_demo_mode (env 4)).passed = true ↔ ∃ b, env 4 = Fetch.resp 200 b) ∧
    ((test_demo_mode (env 4)).passed = false → run_all_tests env = false) := by
  refine ⟨test_demo_mode_passed_iff _, ?_⟩
  intro hfail
  cases hr : run_all_tests env with
  | false => rfl
  | true =>
    have hall := (run_all_tests_iff env).mp hr
    have hmem : test_demo_mode (env 4) ∈ runResults env := by
      rw [runResults_eq]
      simp
    have hp := hall _ hmem
    rw [hfail] at hp
    exact absurd hp (by simp)

/-- Witness for C9: under the all-401 target the demo probe fails and the
run is unsuccessful. -/
theorem claim_C9_witness : run_all_tests env401 = false :=
  (claim_C9 env401).2 rfl

/-- C10: a 200 response whose body binds `errors` to an empty collection is
classified asymmetrically — the bypass probe passes (only the key presence
is checked) while the protected-query probe fails (the keyword scan over the
empty collection finds no match). -/
theorem claim_C10 (i : Nat) (j : Json) (errs : Json)
    (hin : pyIn "errors" j = Except.ok true)
    (hget : pyGet j "errors" = Except.ok errs)
    (hempty : pyIter errs = Except.ok []) :
    (bypassAttemptResult i (Fetch.resp 200 (Except.ok j))).passed = true ∧
    (protectedQueryResult i (Fetch.resp 200 (Except.ok j))).passed = false ∧
    (protectedQueryResult i (Fetch.resp 200 (Except.ok j))).message =
      "Protected query should require authentication" := by
  refine ⟨?_, ?_, ?_⟩
  · simp [bypassAttemptResult, hin]
  · simp [protectedQueryResult, protectedQueryCheck, hin, hget, hempty]
  · simp [protectedQueryResult, protectedQueryCheck, hin, hget, hempty]

/-- Witness for C10 at the body `\x7b"errors": []\x7d`. -/
theorem claim_C10_witness :
    (bypassAttemptResult 0 (Fetch.resp 200 (Except.ok
      (Json.obj [("errors", Json.arr [])])))).passed = true ∧
    (protectedQueryResult 0 (Fetch.resp 200 (Except.ok
      (Json.obj [("errors", Json.arr [])])))).passed = false :=
  ⟨(claim_C10 0 (Json.obj [("errors", Json.arr [])]) (Json.arr []) rfl rfl rfl).1,
   (claim_C10 0 (Json.obj [("errors", Json.arr [])]) (Json.arr []) rfl rfl rfl).2.1⟩

/-- C1 as stated is false: with every request raising a transport error, it
is not the case that all nine verdicts are failed — the bypass verdicts are
passed. -/
theorem claim_C1_counterexample :
    ((runResults envDown).all fun r => r.passed == false) = false := by
  rfl

/-- C1 amended: when every request raises the same transport error, the six
non-bypass verdicts are failed and the three bypass verdicts are passed,
every message carries the transport-error text, the overall boolean is
false and the exit code is 1. -/
theorem claim_C1_amended (e : String) (env : Nat → Fetch) (h : ∀ n, env n = Fetch.exn e) :
    runResults env =
      [⟨"GraphQL Endpoint Available", false, "Failed to connect to GraphQL endpoint: " ++ e, none⟩,
       ⟨"Health Endpoint No Auth Required", false, "Health endpoint test failed: " ++ e, none⟩,
       ⟨"Protected Query 1 Requires Auth", false, "Test failed: " ++ e, none⟩,
       ⟨"Protected Query 2 Requires Auth", false, "Test failed: " ++ e, none⟩,
       ⟨"Demo Mode Detection", false, "Demo mode test failed: " ++ e, none⟩,
       ⟨"Bypass Attempt 1 Blocked", true, "Bypass attempt caused error (likely blocked): " ++ e, none⟩,
       ⟨"Bypass Attempt 2 Blocked", true, "Bypass attempt caused error (likely blocked): " ++ e, none⟩,
       ⟨"Bypass Attempt 3 Blocked", true, "Bypass attempt caused error (likely blocked): " ++ e, none⟩,
       ⟨"Rate Limiting Active", false, "Rate limiting test failed: " ++ e, none⟩] ∧
    run_all_tests env = false ∧ mainExitCode env = 1 := by
  have hr : runResults env =
      [⟨"GraphQL Endpoint Available", false, "Failed to connect to GraphQL endpoint: " ++ e, none⟩,
       ⟨"Health Endpoint No Auth Required", false, "Health endpoint test failed: " ++ e, none⟩,
       ⟨"Protected Query 1 Requires Auth", false, "Test failed: " ++ e, none⟩,
       ⟨"Protected Query 2 Requires Auth", false, "Test failed: " ++ e, none⟩,
       ⟨"Demo Mode Detection", false, "Demo mode test failed: " ++ e, none⟩,
       ⟨"Bypass Attempt 1 Blocked", true, "Bypass attempt caused error (likely blocked): " ++ e, none⟩,
       ⟨"Bypass Attempt 2 Blocked", true, "Bypass attempt caused error (likely blocked): " ++ e, none⟩,
       ⟨"Bypass Attempt 3 Blocked", true, "Bypass attempt caused error (likely blocked): " ++ e, none⟩,
       ⟨"Rate Limiting Active", false, "Rate limiting test failed: " ++ e, none⟩] := by
    rw [runResults_eq]
    simp only [h]
    rfl
  have hrun : run_all_tests env = false := by
    unfold run_all_tests
    rw [hr]
    rfl
  have hexit : mainExitCode env = 1 := by
    unfold mainExitCode
    rw [hrun]
    rfl
  exact ⟨hr, hrun, hexit⟩

/-- Witness for amended C1 at the concretely unreachable target. -/
theorem claim_C1_amended_witness :
    run_all_tests envDown = false ∧ mainExitCode envDown = 1 :=
  ⟨(claim_C1_amended "Connection refused" envDown fun _ => rfl).2.1,
   (claim_C1_amended "Connection refused" envDown fun _ => rfl).2.2⟩

/-- C2 as stated is false: when every protected query is answered with 401,
the protected-query verdicts are failed, not passed. -/
theorem claim_C2_counterexample :
    ((runResults env401).getD 2 dfltResult).name = "Protected Query 1 Requires Auth" ∧
    ((runResults env401).getD 2 dfltResult).passed = false :=
  ⟨rfl, rfl⟩

/-- C2 amended: with 401 answers to the protected queries and bypass
payloads, the three bypass verdicts pass while both protected-query verdicts
fail with an unexpected-status message; the availability and health probes
are still classified by their own 200-expectation rules. -/
theorem claim_C2_amended (env : Nat → Fetch)
    (h2 : ∃ b, env 2 = Fetch.resp 401 b) (h3 : ∃ b, env 3 = Fetch.resp 401 b)
    (h5 : ∃ b, env 5 = Fetch.resp 401 b) (h6 : ∃ b, env 6 = Fetch.resp 401 b)
    (h7 : ∃ b, env 7 = Fetch.resp 401 b) :
    (runResults env).getD 2 dfltResult =
      ⟨"Protected Query 1 Requires Auth", false, "Unexpected status code: 401", some 401⟩ ∧
    (runResults env).getD 3 dfltResult =
      ⟨"Protected Query 2 Requires Auth", false, "Unexpected status code: 401", some 401⟩ ∧
    (runResults env).getD 5 dfltResult =
      ⟨"Bypass Attempt 1 Blocked", true, "Bypass attempt rejected with status 401", some 401⟩ ∧
    (runResults env).getD 6 dfltResult =
      ⟨"Bypass Attempt 2 Blocked", true, "Bypass attempt rejected with status 401", some 401⟩ ∧
    (runResults env).getD 7 dfltResult =
      ⟨"Bypass Attempt 3 Blocked", true, "Bypass attempt rejected with status 401", some 401⟩ ∧
    (((runResults env).getD 0 dfltResult).passed = true ↔ ∃ b, env 0 = Fetch.resp 200 b) ∧
    (((runResults env).getD 1 dfltResult).passed = true ↔
      ∃ b, env 1 = Fetch.resp 200 b ∧ healthBodyCheck b = Except.ok true) := by
  obtain ⟨b2, hb2⟩ := h2
  obtain ⟨b3, hb3⟩ := h3
  obtain ⟨b5, hb5⟩ := h5
  obtain ⟨b6, hb6⟩ := h6
  obtain ⟨b7, hb7⟩ := h7
  rw [runResults_eq]
  refine ⟨?_, ?_, ?_, ?_, ?_, ?_, ?_⟩
  · rw [hb2]
    rfl
  · rw [hb3]
    rfl
  · rw [hb5]
    rfl
  · rw [hb6]
    rfl
  · rw [hb7]
    rfl
  · exact test_graphql_endpoint_passed_iff (env 0)
  · exact test_health_endpoint_passed_iff (env 1)

/-- Witness for amended C2 at the all-401 target. -/
theorem claim_C2_amended_witness :
    (runResults env401).getD 3 dfltResult =
      ⟨"Protected Query 2 Requires Auth", false, "Unexpected status code: 401", some 401⟩ ∧
    (runResults env401).getD 5 dfltResult =
      ⟨"Bypass Attempt 1 Blocked", true, "Bypass attempt rejected with status 401", some 401⟩ :=
  ⟨(claim_C2_amended env401 ⟨_, rfl⟩ ⟨_, rfl⟩ ⟨_, rfl⟩ ⟨_, rfl⟩ ⟨_, rfl⟩).2.1,
   (claim_C2_amended env401 ⟨_, rfl⟩ ⟨_, rfl⟩ ⟨_, rfl⟩ ⟨_, rfl⟩ ⟨_, rfl⟩).2.2.1⟩

/-- C6 as stated is false: a rate-limit run whose requests all raise a
timeout yields a failed verdict, not a passed one. -/
theorem claim_C6_counterexample :
    (test_rate_limiting (List.replicate 10 (Fetch.exn "Read timed out"))).passed = false := by
  rfl

/-- C6 amended: the rate-limit verdict is passed for every sequence of
completed responses, whatever their statuses — a 429 is recorded only in the
message — but if any request raises a transport exception the verdict is
failed with the error text. -/
theorem claim_C6_amended (outcomes : List Fetch) :
    (firstExn outcomes = none → (test_rate_limiting outcomes).passed = true) ∧
    (∀ e, firstExn outcomes = some e →
      test_rate_limiting outcomes =
        ⟨"Rate Limiting Active", false, "Rate limiting test failed: " ++ e, none⟩) := by
  constructor
  · intro h
    simp only [test_rate_limiting, h]
    split
    all_goals rfl
  · intro e h
    simp [test_rate_limiting, h]

/-- Witness for amended C6: ten completed 200 responses pass. -/
theorem claim_C6_amended_witness :
    (test_rate_limiting (List.replicate 10 (Fetch.resp 200 (Except.ok Json.null)))).passed = true :=
  (claim_C6_amended _).1 rfl
